import Mathlib

/-!
Shallow embedding of the s3website HTTP handler (s3website.go).

The program serves objects from an S3 bucket as a static website.  The
embedding models the two handler functions `serveFile` and `ServeHTTP`
together with the helpers they use (`acceptEncodingGzip`, `headObject`,
`getObject`, the compressible content-type table, and the pieces of the
Go standard library the handler calls: `strings.Split`,
`strings.TrimSpace`, `strings.HasSuffix`, `filepath.Ext`,
`base64.StdEncoding.WithPadding(base64.NoPadding)`).

External effectful collaborators are abstracted as data:
  * the S3 client is a pair of response tables (`S3Client`), one per key,
    mirroring the Go SDK's `(output, error)` results;
  * `gzip.NewWriter`/`Write`/`Close` over a full byte stream is an
    abstract function `GoLib.gzipCompress` (writing bytes through a gzip
    writer into a buffer yields some compressed byte string);
  * `crypto/sha256` is an abstract digest function `GoLib.sha256`;
  * `mime.TypeByExtension` (whose table is partly loaded from the host
    system) is an abstract function `GoLib.mimeTypeByExtension`.
The response writer is modelled by the single terminal action each code
path performs (`http.Error`, `http.NotFound`, `http.Redirect`,
`http.ServeContent`), each carrying the data the program passes to it.
-/

namespace S3Website

/-- A Go error as the handler observes it: either an AWS SDK error
carrying a code (`awserr.Error`), or any other error.  The handler only
inspects the code via a type assertion plus `Code()`. -/
inductive GoError where
  | awsErr (code : String) (msg : String)
  | other (msg : String)
deriving DecidableEq, Repr

/-- `err.Error()`, the message the handler passes to `http.Error`. -/
def GoError.message : GoError → String
  | .awsErr _ m => m
  | .other m => m

/-- The check `awsErr, ok := err.(awserr.Error); ok && awsErr.Code() == c`. -/
def GoError.isAwsCode (e : GoError) (c : String) : Bool :=
  match e with
  | .awsErr code _ => code == c
  | .other _ => false

/-- `s3.HeadObjectOutput` — the handler never reads any of its fields,
only whether a non-nil output came back. -/
structure HeadObjectOutput where
  exists_marker : Unit := ()
deriving DecidableEq, Repr

/-- `s3.GetObjectOutput`, restricted to the fields the handler reads.
`body` stands for the result of draining the `Body` reader: the full
byte list on success, or the read error `io.Copy` reports. -/
structure GetObjectOutput where
  contentType : Option String
  contentLength : Option Int
  cacheControl : Option String
  lastModified : Option Nat
  body : Except String (List Nat)
deriving Repr

/-- The configured S3 client, abstracted as its per-key responses for
the two operations the handler performs. -/
structure S3Client where
  headObjectResp : String → Except GoError HeadObjectOutput
  getObjectResp : String → Except GoError GetObjectOutput

/-- The pure Go library functions the handler calls whose definitions
live outside this repository (compression, hashing, MIME table). -/
structure GoLib where
  gzipCompress : List Nat → List Nat
  sha256 : List Nat → List Nat
  mimeTypeByExtension : String → String

/-- `aws.StringValue`: dereference an optional string, `""` for nil. -/
def awsStringValue : Option String → String
  | some s => s
  | none => ""

/-- `aws.TimeValue`: dereference an optional time, zero time for nil. -/
def awsTimeValue : Option Nat → Nat
  | some t => t
  | none => 0

/-- The incoming request as the handler reads it: `req.URL.Path` and
`req.Header.Get("accept-encoding")` (the empty string when the header
is absent, as in Go). -/
structure Request where
  urlPath : String
  acceptEncoding : String
deriving DecidableEq, Repr

/- ### Go standard-library string functions (structural re-definitions) -/

/-- Helper for `goSplit`: walk the characters, cutting at `sep`. -/
def splitOnCharAux (sep : Char) : List Char → List Char → List String
  | [], acc => [String.mk acc.reverse]
  | c :: rest, acc =>
      if c = sep then String.mk acc.reverse :: splitOnCharAux sep rest []
      else splitOnCharAux sep rest (c :: acc)

/-- `strings.Split(s, sep)` for a one-character separator (the only form
the program uses: `","` and `";"`).  On the empty string it returns a
one-element list holding the empty string, as in Go. -/
def goSplit (s : String) (sep : Char) : List String :=
  splitOnCharAux sep s.data []

/-- `unicode.IsSpace` on the code points that matter for header values
(Go also trims a few higher Unicode space characters; header tokens are
ASCII so the difference is immaterial and we keep the ASCII part plus
NEL and NBSP, which Go trims as well). -/
def goIsSpace (c : Char) : Bool :=
  c = ' ' || c = '\t' || c = '\n' || c = '\x0b' || c = '\x0c' || c = '\r'
    || c = Char.ofNat 133 || c = Char.ofNat 160

/-- `strings.TrimSpace`. -/
def trimSpace (s : String) : String :=
  String.mk (((s.data.dropWhile goIsSpace).reverse.dropWhile goIsSpace).reverse)

/-- `strings.HasSuffix(s, suffix)`. -/
def goHasSuffix (s suffix : String) : Bool :=
  (s.data.reverse.take suffix.data.length) == suffix.data.reverse

/-- `filepath.Ext`: the suffix of the last path element starting at its
final dot (scan backwards, stop at `/`). -/
def filepathExtAux : List Char → List Char → String
  | [], _ => ""
  | c :: rest, acc =>
      if c = '/' then ""
      else if c = '.' then String.mk (c :: acc)
      else filepathExtAux rest (c :: acc)

/-- `filepath.Ext(path)`. -/
def filepathExt (path : String) : String :=
  filepathExtAux path.data.reverse []

/- ### base64.StdEncoding with padding disabled -/

/-- One digit of the standard base64 alphabet. -/
def base64Char (n : Nat) : Char :=
  if n < 26 then Char.ofNat (65 + n)
  else if n < 52 then Char.ofNat (97 + (n - 26))
  else if n < 62 then Char.ofNat (48 + (n - 52))
  else if n = 62 then '+'
  else '/'

/-- Standard base64 of a byte list, without padding characters
(`base64.StdEncoding.WithPadding(base64.NoPadding)`). -/
def base64EncodeNoPad : List Nat → List Char
  | [] => []
  | [b1] =>
      [base64Char (b1 / 4), base64Char (b1 % 4 * 16)]
  | [b1, b2] =>
      [base64Char (b1 / 4), base64Char (b1 % 4 * 16 + b2 / 16),
       base64Char (b2 % 16 * 4)]
  | b1 :: b2 :: b3 :: rest =>
      base64Char (b1 / 4) :: base64Char (b1 % 4 * 16 + b2 / 16) ::
      base64Char (b2 % 16 * 4 + b3 / 64) :: base64Char (b3 % 64) ::
      base64EncodeNoPad rest

/-- `base64Encoding.EncodeToString` from the program. -/
def base64EncodingEncodeToString (bs : List Nat) : String :=
  String.mk (base64EncodeNoPad bs)

/- ### Response model -/

/-- The response header map, as a list of (lower-case key, value) pairs
with `Set` semantics (`http.Header.Set` replaces all previous values of
the key; the program only ever uses `Set`). -/
abbrev Headers := List (String × String)

/-- `w.Header().Set(k, v)`. -/
def setHeader (hs : Headers) (k v : String) : Headers :=
  (k, v) :: hs.filter (fun p => !(p.1 == k))

/-- Look up a header key; `none` when the key was never set. -/
def getHeader (hs : Headers) (k : String) : Option String :=
  match hs.find? (fun p => p.1 == k) with
  | some p => some p.2
  | none => none

/-- The single terminal write each code path of the handler performs on
the `http.ResponseWriter`.  Status and body bytes reach the wire only
through the one constructor the run ends in, which is how the source
behaves: every path calls exactly one of `http.Error`, `http.NotFound`,
`http.Redirect`, `http.ServeContent` and returns. -/
inductive Outcome where
  | httpError (status : Nat) (msg : String)
  | notFound
  | redirect (status : Nat) (location : String)
  | serveContent (headers : Headers) (name : String) (modtime : Nat)
      (content : List Nat)
deriving DecidableEq, Repr

/-- The transmitted content of a success response, `none` otherwise. -/
def outcomeContent : Outcome → Option (List Nat)
  | .serveContent _ _ _ content => some content
  | _ => none

/-- A header of a success response, `none` otherwise. -/
def outcomeHeader (o : Outcome) (k : String) : Option String :=
  match o with
  | .serveContent hs _ _ _ => getHeader hs k
  | _ => none

/- ### The program -/

/-- The fixed `compressableContentTypes` table from the source. -/
def compressableContentTypes : List String :=
  ["application/eot", "application/font", "application/font-sfnt",
   "application/javascript", "application/json", "application/opentype",
   "application/otf", "application/pkcs7-mime", "application/truetype",
   "application/ttf", "application/vnd.ms-fontobject",
   "application/x-font-opentype", "application/x-font-truetype",
   "application/x-font-ttf", "application/x-httpd-cgi",
   "application/x-javascript", "application/x-mpegurl",
   "application/x-opentype", "application/x-otf", "application/x-perl",
   "application/x-ttf", "application/xhtml+xml", "application/xml",
   "application/xml+rss", "font/eot", "font/opentype", "font/otf",
   "font/ttf", "image/svg+xml", "text/css", "text/csv", "text/html",
   "text/javascript", "text/js", "text/plain", "text/richtext",
   "text/tab-separated-values", "text/x-component", "text/x-java-source",
   "text/x-script", "text/xml"]

/-- `compressableContentTypes[ct]`: Go map lookup, false when absent. -/
def isCompressable (ct : String) : Bool :=
  compressableContentTypes.contains ct

/-- `acceptEncodingGzip(req)`: split the `accept-encoding` header value
on commas and accept iff some token trims to exactly "gzip". -/
def acceptEncodingGzip (req : Request) : Bool :=
  (goSplit req.acceptEncoding ',').any (fun encoding => trimSpace encoding == "gzip")

/-- `(*S3Website).headObject`: an AWS error with code "NotFound" is
turned into `(nil, nil)` (absence); any other error propagates; success
returns the output. -/
def headObject (c : S3Client) (key : String) : Except GoError (Option HeadObjectOutput) :=
  match c.headObjectResp key with
  | .error e => if e.isAwsCode "NotFound" then .ok none else .error e
  | .ok out => .ok (some out)

/-- `(*S3Website).getObject`: an AWS error with code "NoSuchKey" is
turned into `(nil, nil)` (absence); any other error propagates; success
returns the output. -/
def getObject (c : S3Client) (key : String) : Except GoError (Option GetObjectOutput) :=
  match c.getObjectResp key with
  | .error e => if e.isAwsCode "NoSuchKey" then .ok none else .error e
  | .ok out => .ok (some out)

/-- The content-type resolution of `serveFile`: the store-reported
content-type if non-empty, else `mime.TypeByExtension(filepath.Ext(key))`. -/
def resolveContentType (lib : GoLib) (key : String) (out : GetObjectOutput) : String :=
  let fileContentType := awsStringValue out.contentType
  if fileContentType == "" then lib.mimeTypeByExtension (filepathExt key)
  else fileContentType

/-- The compression decision of `serveFile`:
`compressableContentTypes[strings.Split(fileContentType, ";")[0]] && acceptEncodingGzip(req)`. -/
def gzipDecision (lib : GoLib) (req : Request) (key : String) (out : GetObjectOutput) : Bool :=
  isCompressable ((goSplit (resolveContentType lib key out) ';').headD "")
    && acceptEncodingGzip req

/-- The success path of `serveFile`, after the object was fetched and
its body fully read.  The bytes copied through `io.MultiWriter` are the
object's raw body bytes: they reach the sha256 hash directly, while the
data buffer receives them through the chosen write-closer (the gzip
writer when compressing, a pass-through otherwise).  Closing into a
`bytes.Buffer` cannot fail, so no error path remains here.  Header
writes, in source order: content-type (if non-empty, before the copy),
etag, content-encoding/vary (if compressing), content-type again
(unconditionally), cache-control. -/
def buildSuccessResponse (lib : GoLib) (req : Request) (key : String)
    (getObjectOutput : GetObjectOutput) (bodyBytes : List Nat) : Outcome :=
  let fileContentType := resolveContentType lib key getObjectOutput
  let headers : Headers :=
    if fileContentType == "" then [] else setHeader [] "content-type" fileContentType
  let gzipEncoded := gzipDecision lib req key getObjectOutput
  let data := if gzipEncoded then lib.gzipCompress bodyBytes else bodyBytes
  let fileHashSum := lib.sha256 bodyBytes
  let etag := "\"" ++ base64EncodingEncodeToString fileHashSum ++ "\""
  let headers := setHeader headers "etag" etag
  let headers :=
    if gzipEncoded then
      setHeader (setHeader headers "content-encoding" "gzip") "vary" "accept-encoding"
    else headers
  let headers := setHeader headers "content-type" fileContentType
  let headers :=
    if awsStringValue getObjectOutput.cacheControl == "" then
      setHeader headers "cache-control" "max-age=60"
    else
      setHeader headers "cache-control" (awsStringValue getObjectOutput.contentType)
  Outcome.serveContent headers key (awsTimeValue getObjectOutput.lastModified) data

/-- `(*S3Website).serveFile`.  A fetch error gives `http.Error(500)`, a
nil output gives `http.NotFound`, a body-read error gives
`http.Error(500)` (the content-type header set before the copy in the
source does not survive into `http.Error`'s plain-text response and
carries no observable data on that path), and otherwise the fully
buffered, possibly compressed body is handed to `http.ServeContent`. -/
def serveFile (lib : GoLib) (c : S3Client) (req : Request) (key : String) : Outcome :=
  match getObject c key with
  | .error err => .httpError 500 err.message
  | .ok none => .notFound
  | .ok (some getObjectOutput) =>
    match getObjectOutput.body with
    | .error msg => .httpError 500 msg
    | .ok bodyBytes => buildSuccessResponse lib req key getObjectOutput bodyBytes

/-- `(*S3Website).ServeHTTP`: trailing-slash paths serve
`path + "index.html"` directly; other paths try the key, then
`key + "/index.html"` (redirecting with 302 to `key + "/"`), then 404.
`http.Redirect` is modelled as recording the location argument the
program passes it (the paths involved are already clean). -/
def serveHTTP (lib : GoLib) (c : S3Client) (req : Request) : Outcome :=
  let key := req.urlPath
  if goHasSuffix key "/" then
    serveFile lib c req (key ++ "index.html")
  else
    match headObject c key with
    | .error err => .httpError 500 err.message
    | .ok (some _) => serveFile lib c req key
    | .ok none =>
      match headObject c (key ++ "/index.html") with
      | .error err => .httpError 500 err.message
      | .ok (some _) => .redirect 302 (key ++ "/")
      | .ok none => .notFound

/-! ### Header-map lemmas and the success-path shape of `serveFile` -/

/-- Setting a key then reading it gives the value just set. -/
theorem getHeader_set_same (hs : Headers) (k v : String) :
    getHeader (setHeader hs k v) k = some v := by
  simp [getHeader, setHeader, List.find?]

/-- Setting one key leaves every other key unchanged. -/
theorem getHeader_set_ne (hs : Headers) (k k' v : String) (h : k' ≠ k) :
    getHeader (setHeader hs k v) k' = getHeader hs k' := by
  have hk : (k == k') = false := by
    simp [beq_eq_false_iff_ne]
    exact fun e => h e.symm
  simp only [getHeader, setHeader]
  rw [List.find?_cons_of_neg]
  · congr 1
    induction hs with
    | nil => rfl
    | cons a t ih =>
      by_cases ha : a.1 == k
      · have haeq : a.1 = k := by simpa [beq_iff_eq] using ha
        have ha' : (a.1 == k') = false := by
          rw [beq_eq_false_iff_ne, haeq]
          exact fun e => h e.symm
        simp [List.filter, ha, List.find?, ha', ih]
      · simp only [List.filter]
        rw [show (!(a.1 == k)) = true by simp [ha]]
        by_cases ha' : a.1 == k'
        · simp [List.find?, ha']
        · simp [List.find?, ha', ih]
  · simpa using hk

/-- The empty header map has no keys. -/
theorem getHeader_nil (k : String) : getHeader [] k = none := rfl

/-- When the fetch succeeds and the body is fully read, `serveFile`
reaches its success path. -/
theorem serveFile_success (lib : GoLib) (c : S3Client) (req : Request) (key : String)
    (out : GetObjectOutput) (bs : List Nat)
    (hGet : c.getObjectResp key = .ok out) (hBody : out.body = .ok bs) :
    serveFile lib c req key = buildSuccessResponse lib req key out bs := by
  simp [serveFile, getObject, hGet, hBody]

/-- Shape of a success response: the transmitted content and the two
compression headers, all governed by `gzipDecision`. -/
theorem serveFile_gzip_shape (lib : GoLib) (c : S3Client) (req : Request) (key : String)
    (out : GetObjectOutput) (bs : List Nat)
    (hGet : c.getObjectResp key = .ok out) (hBody : out.body = .ok bs) :
    outcomeContent (serveFile lib c req key) =
      some (if gzipDecision lib req key out then lib.gzipCompress bs else bs) ∧
    outcomeHeader (serveFile lib c req key) "content-encoding" =
      (if gzipDecision lib req key out then some "gzip" else none) ∧
    outcomeHeader (serveFile lib c req key) "vary" =
      (if gzipDecision lib req key out then some "accept-encoding" else none) := by
  rw [serveFile_success lib c req key out bs hGet hBody]
  unfold buildSuccessResponse
  by_cases hgz : gzipDecision lib req key out <;>
  by_cases hcc : awsStringValue out.cacheControl == "" <;>
  by_cases hct : resolveContentType lib key out == "" <;>
  simp [hgz, hcc, hct, outcomeContent, outcomeHeader,
    getHeader_set_same, getHeader_set_ne, getHeader_nil]

/-- The etag header of a success response is always the quoted, unpadded
base64 encoding of the sha256 digest of the raw (uncompressed) body. -/
theorem serveFile_etag (lib : GoLib) (c : S3Client) (req : Request) (key : String)
    (out : GetObjectOutput) (bs : List Nat)
    (hGet : c.getObjectResp key = .ok out) (hBody : out.body = .ok bs) :
    outcomeHeader (serveFile lib c req key) "etag" =
      some ("\"" ++ base64EncodingEncodeToString (lib.sha256 bs) ++ "\"") := by
  rw [serveFile_success lib c req key out bs hGet hBody]
  unfold buildSuccessResponse
  by_cases hgz : gzipDecision lib req key out <;>
  by_cases hcc : awsStringValue out.cacheControl == "" <;>
  by_cases hct : resolveContentType lib key out == "" <;>
  simp [hgz, hcc, hct, outcomeHeader, getHeader_set_same, getHeader_set_ne, getHeader_nil]

/-! ### Concrete fixtures for evaluating the handler at specific inputs

`demoLib` instantiates the abstract library functions with executable
stand-ins: a compressor that prepends the two gzip magic bytes (so that
compressed output differs from its input) and the identity digest (so
that digests of different byte lists differ).  The real gzip and sha256
have the same two properties on these inputs. -/

def demoLib : GoLib where
  gzipCompress bs := 31 :: 139 :: bs
  sha256 bs := bs
  mimeTypeByExtension _ := ""

def c1Obj : GetObjectOutput where
  contentType := some "text/html"
  contentLength := some 2
  cacheControl := none
  lastModified := some 0
  body := .ok [104, 105]

def c1Client : S3Client where
  headObjectResp _ := .ok {}
  getObjectResp _ := .ok c1Obj

def c1Req : Request where
  urlPath := "/index.html"
  acceptEncoding := "gzip"

def c2Obj : GetObjectOutput where
  contentType := some "text/html"
  contentLength := some 2
  cacheControl := some "no-store"
  lastModified := some 0
  body := .ok [104, 105]

def c2Client : S3Client where
  headObjectResp _ := .ok {}
  getObjectResp _ := .ok c2Obj

def c2Req : Request where
  urlPath := "/page.html"
  acceptEncoding := ""

def c3Obj : GetObjectOutput where
  contentType := some "application/javascript"
  contentLength := some 2
  cacheControl := none
  lastModified := some 0
  body := .ok [104, 105]

def c3Client : S3Client where
  headObjectResp _ := .ok {}
  getObjectResp _ := .ok c3Obj

def c3Req : Request where
  urlPath := "/app.js"
  acceptEncoding := "gzip, deflate"

def c4Client : S3Client where
  headObjectResp k :=
    if k == "/about/index.html" then .ok {} else .error (.awsErr "NotFound" "not found")
  getObjectResp _ := .error (.awsErr "NoSuchKey" "absent")

def c4Req : Request where
  urlPath := "/about"
  acceptEncoding := ""

def c5Client : S3Client where
  headObjectResp _ := .ok {}
  getObjectResp _ := .error (.awsErr "NoSuchKey" "absent")

def c5Req : Request where
  urlPath := "/docs/"
  acceptEncoding := ""

def c6Client : S3Client where
  headObjectResp _ := .error (.other "connection timeout")
  getObjectResp _ := .error (.other "connection timeout")

def c6Req : Request where
  urlPath := "/missing.png"
  acceptEncoding := ""

def c7Obj : GetObjectOutput where
  contentType := none
  contentLength := some 2
  cacheControl := none
  lastModified := none
  body := .ok [1, 2]

def c7Client : S3Client where
  headObjectResp _ := .ok {}
  getObjectResp _ := .ok c7Obj

def c7Req : Request where
  urlPath := "/data"
  acceptEncoding := ""

def c8Obj : GetObjectOutput where
  contentType := some "text/plain"
  contentLength := some 10
  cacheControl := none
  lastModified := some 0
  body := .error "connection reset"

def c8Client : S3Client where
  headObjectResp _ := .ok {}
  getObjectResp _ := .ok c8Obj

def c8Req : Request where
  urlPath := "/file"
  acceptEncoding := ""

def c9ObjA : GetObjectOutput where
  contentType := some "text/plain"
  contentLength := some 2
  cacheControl := none
  lastModified := some 7
  body := .ok [5, 6]

def c9ObjB : GetObjectOutput where
  contentType := none
  contentLength := some 2
  cacheControl := some "max-age=300"
  lastModified := some 9
  body := .ok [5, 6]

def c9ClientA : S3Client where
  headObjectResp _ := .ok {}
  getObjectResp _ := .ok c9ObjA

def c9ClientB : S3Client where
  headObjectResp _ := .ok {}
  getObjectResp _ := .ok c9ObjB

def c9ReqA : Request where
  urlPath := "/a.txt"
  acceptEncoding := ""

def c9ReqB : Request where
  urlPath := "/b.bin"
  acceptEncoding := ""

def c10Obj : GetObjectOutput where
  contentType := some "text/html"
  contentLength := some 2
  cacheControl := none
  lastModified := some 0
  body := .ok [104, 105]

def c10Client : S3Client where
  headObjectResp _ := .ok {}
  getObjectResp _ := .ok c10Obj

def c10Req : Request where
  urlPath := "/page.html"
  acceptEncoding := "gzip;q=1.0"

/-! ### The claims -/

/-- Claim C1.  The claim says the ETag digest is computed over exactly
the transmitted bytes (the compressed bytes when gzip is applied).  The
code instead feeds the sha256 hash through `io.MultiWriter` with the
raw object bytes — the gzip writer's input, not its output — so when
compression is applied the response transmits the compressed bytes
while the ETag is the digest of the uncompressed bytes.  Evaluated here
at a compressible object ("text/html", body [104, 105]) requested with
`Accept-Encoding: gzip`: compression is on, the transmitted content is
the compressor's output, yet the etag header quotes the digest of the
raw body, which differs from the digest of the transmitted bytes. -/
theorem c1_etag_digest_of_uncompressed_bytes :
    outcomeHeader (serveFile demoLib c1Client c1Req "/index.html") "content-encoding" =
      some "gzip" ∧
    outcomeContent (serveFile demoLib c1Client c1Req "/index.html") =
      some (demoLib.gzipCompress [104, 105]) ∧
    outcomeHeader (serveFile demoLib c1Client c1Req "/index.html") "etag" =
      some ("\"" ++ base64EncodingEncodeToString (demoLib.sha256 [104, 105]) ++ "\"") ∧
    some ("\"" ++ base64EncodingEncodeToString (demoLib.sha256 [104, 105]) ++ "\"") ≠
      some ("\"" ++ base64EncodingEncodeToString
        (demoLib.sha256 (demoLib.gzipCompress [104, 105])) ++ "\"") := by
  decide

/-- Claim C2.  The claim says a store-reported non-empty cache-control
directive becomes the response's Cache-Control value.  The code instead
sets the cache-control header to the store-reported *content-type*
value on that branch (the latent bug the spec's design notes flag).
Evaluated at an object with cache-control "no-store" and content-type
"text/html": the response's cache-control header is "text/html". -/
theorem c2_cache_control_set_to_content_type :
    c2Obj.cacheControl = some "no-store" ∧
    outcomeHeader (serveFile demoLib c2Client c2Req "/page.html") "cache-control" =
      some "text/html" ∧
    (some "text/html" : Option String) ≠ some "no-store" := by
  decide

/-- Claim C3: for every served object, the body is gzip-compressed iff
the resolved content-type stripped at ";" is in the compressible table
and some comma-token of Accept-Encoding trims to exactly "gzip"; exactly
then the response carries `Content-Encoding: gzip` and
`Vary: Accept-Encoding`, and otherwise the body is unchanged and
neither header is present. -/
theorem c3_compression_iff (lib : GoLib) (c : S3Client) (req : Request) (key : String)
    (out : GetObjectOutput) (bs : List Nat)
    (hGet : c.getObjectResp key = .ok out) (hBody : out.body = .ok bs) :
    gzipDecision lib req key out =
      (isCompressable ((goSplit (resolveContentType lib key out) ';').headD "")
        && (goSplit req.acceptEncoding ',').any (fun t => trimSpace t == "gzip")) ∧
    outcomeContent (serveFile lib c req key) =
      some (if gzipDecision lib req key out then lib.gzipCompress bs else bs) ∧
    outcomeHeader (serveFile lib c req key) "content-encoding" =
      (if gzipDecision lib req key out then some "gzip" else none) ∧
    outcomeHeader (serveFile lib c req key) "vary" =
      (if gzipDecision lib req key out then some "accept-encoding" else none) :=
  ⟨rfl, serveFile_gzip_shape lib c req key out bs hGet hBody⟩

/-- Witness for C3 at spec scenario C: "/app.js" with content-type
"application/javascript" and `Accept-Encoding: gzip, deflate` is served
compressed with `Content-Encoding: gzip`. -/
theorem c3_compression_iff_witness :
    outcomeHeader (serveFile demoLib c3Client c3Req "/app.js") "content-encoding" =
      some "gzip" ∧
    outcomeContent (serveFile demoLib c3Client c3Req "/app.js") =
      some (demoLib.gzipCompress [104, 105]) := by
  have h := c3_compression_iff demoLib c3Client c3Req "/app.js" c3Obj [104, 105] rfl rfl
  constructor
  · rw [h.2.2.1]; decide
  · rw [h.2.1]; decide

/-- Claim C4: for a path without a trailing slash and with both
existence checks answering (no transport error), the handler serves the
key if it exists, else redirects 302 to `path + "/"` if
`key + "/index.html"` exists, else responds 404; the three guards are
mutually exclusive and the three outcomes exhaust the behavior. -/
theorem c4_resolution (lib : GoLib) (c : S3Client) (req : Request)
    (r1 r2 : Option HeadObjectOutput)
    (hs : goHasSuffix req.urlPath "/" = false)
    (h1 : headObject c req.urlPath = .ok r1)
    (h2 : headObject c (req.urlPath ++ "/index.html") = .ok r2) :
    (r1.isSome = true → serveHTTP lib c req = serveFile lib c req req.urlPath) ∧
    (r1 = none → r2.isSome = true →
      serveHTTP lib c req = .redirect 302 (req.urlPath ++ "/")) ∧
    (r1 = none → r2 = none → serveHTTP lib c req = .notFound) ∧
    (serveHTTP lib c req = serveFile lib c req req.urlPath ∨
     serveHTTP lib c req = .redirect 302 (req.urlPath ++ "/") ∨
     serveHTTP lib c req = .notFound) ∧
    ((r1.isSome = true ∧ ¬(r1 = none ∧ r2.isSome = true) ∧ ¬(r1 = none ∧ r2 = none)) ∨
     (¬r1.isSome = true ∧ (r1 = none ∧ r2.isSome = true) ∧ ¬(r1 = none ∧ r2 = none)) ∨
     (¬r1.isSome = true ∧ ¬(r1 = none ∧ r2.isSome = true) ∧ (r1 = none ∧ r2 = none))) := by
  cases r1 <;> cases r2 <;> simp_all [serveHTTP]

/-- Witness for C4 at spec scenario B: "/about" does not exist but
"/about/index.html" does, so the handler responds 302 with Location
"/about/". -/
theorem c4_resolution_witness :
    serveHTTP demoLib c4Client c4Req = .redirect 302 "/about/" := by
  have h := c4_resolution demoLib c4Client c4Req none (some {}) (by decide) rfl rfl
  exact h.2.1 rfl rfl

/-- Claim C5: for a path ending in "/", the handler always serves
`path + "index.html"`: no existence check happens first (the outcome is
unchanged under any change to the client's head-metadata responses),
and an absent object surfaces as 404 out of the content-fetch step. -/
theorem c5_trailing_slash (lib : GoLib) (c : S3Client) (req : Request)
    (h : goHasSuffix req.urlPath "/" = true) :
    serveHTTP lib c req = serveFile lib c req (req.urlPath ++ "index.html") ∧
    (∀ m, c.getObjectResp (req.urlPath ++ "index.html") = .error (.awsErr "NoSuchKey" m) →
      serveHTTP lib c req = .notFound) ∧
    (∀ c' : S3Client, c'.getObjectResp = c.getObjectResp →
      serveHTTP lib c' req = serveHTTP lib c req) := by
  refine ⟨by simp [serveHTTP, h], fun m hm => ?_, fun c' hc' => ?_⟩
  · simp [serveHTTP, h, serveFile, getObject, hm, GoError.isAwsCode]
  · simp [serveHTTP, h, serveFile, getObject, hc']

/-- Witness for C5: "/docs/" with "/docs/index.html" absent from the
store responds 404. -/
theorem c5_trailing_slash_witness :
    serveHTTP demoLib c5Client c5Req = .notFound := by
  have h := c5_trailing_slash demoLib c5Client c5Req (by decide)
  exact h.2.1 "absent" rfl

/-- Claim C6: a metadata existence check failing with anything other
than the store's "NotFound" signal aborts resolution with HTTP 500, at
either check site; the "NotFound" signal itself never yields a 500 —
it sends resolution on to the next step, or to 404 when both checks
report absence. -/
theorem c6_head_error_is_500 (lib : GoLib) (c : S3Client) (req : Request)
    (hs : goHasSuffix req.urlPath "/" = false) :
    (∀ e : GoError, c.headObjectResp req.urlPath = .error e →
        e.isAwsCode "NotFound" = false →
        serveHTTP lib c req = .httpError 500 e.message) ∧
    (∀ m : String, c.headObjectResp req.urlPath = .error (.awsErr "NotFound" m) →
      (∀ e2 : GoError, c.headObjectResp (req.urlPath ++ "/index.html") = .error e2 →
          e2.isAwsCode "NotFound" = false →
          serveHTTP lib c req = .httpError 500 e2.message) ∧
      (∀ m2 : String,
          c.headObjectResp (req.urlPath ++ "/index.html") = .error (.awsErr "NotFound" m2) →
          serveHTTP lib c req = .notFound)) := by
  refine ⟨fun e he hcode => ?_, fun m hm => ⟨fun e2 he2 hcode2 => ?_, fun m2 hm2 => ?_⟩⟩
  · simp [serveHTTP, hs, headObject, he, hcode]
  · simp only [GoError.isAwsCode] at hcode2
    simp [serveHTTP, hs, headObject, hm, he2, hcode2, GoError.isAwsCode]
  · simp [serveHTTP, hs, headObject, hm, hm2, GoError.isAwsCode]

/-- Witness for C6: a transport error ("connection timeout", not an AWS
"NotFound") on the first existence check yields HTTP 500 carrying the
error message. -/
theorem c6_head_error_is_500_witness :
    serveHTTP demoLib c6Client c6Req = .httpError 500 "connection timeout" := by
  have h := c6_head_error_is_500 demoLib c6Client c6Req (by decide)
  exact h.1 (.other "connection timeout") rfl rfl

/-- Counterexample to Claim C7 as stated: with no store-reported
content-type and no extension-derived type, the response does carry a
content-type header — set to the empty string by the unconditional
`w.Header().Set("content-type", fileContentType)` — rather than
carrying no content-type header at all. -/
theorem c7_counterexample :
    outcomeHeader (serveFile demoLib c7Client c7Req "/data") "content-type" ≠ none ∧
    outcomeHeader (serveFile demoLib c7Client c7Req "/data") "content-type" = some "" := by
  decide

/-- Claim C7 as amended: when the content-type is neither reported by
the store nor inferable from the key's extension (the resolved
content-type is empty), the response's content-type header is set to
the empty string — so no guessed default value appears, and the
present-but-empty key also keeps `http.ServeContent` from sniffing a
type of its own. -/
theorem c7_unknown_content_type_empty_header (lib : GoLib) (c : S3Client) (req : Request)
    (key : String) (out : GetObjectOutput) (bs : List Nat)
    (hGet : c.getObjectResp key = .ok out) (hBody : out.body = .ok bs)
    (hct : resolveContentType lib key out = "") :
    outcomeHeader (serveFile lib c req key) "content-type" = some "" := by
  rw [serveFile_success lib c req key out bs hGet hBody]
  unfold buildSuccessResponse
  by_cases hcc : awsStringValue out.cacheControl == "" <;>
  simp [hct, hcc, outcomeHeader, getHeader_set_same, getHeader_set_ne]

/-- Witness for the amended C7 at a key with no extension and an object
with no reported content-type. -/
theorem c7_unknown_content_type_empty_header_witness :
    outcomeHeader (serveFile demoLib c7Client c7Req "/data") "content-type" = some "" := by
  exact c7_unknown_content_type_empty_header demoLib c7Client c7Req "/data" c7Obj [1, 2]
    rfl rfl (by decide)

/-- Claim C8: a body-read failure yields exactly `http.Error(500, msg)`
— never a success response — and a success response only ever exists
with the complete (possibly compressed) body: the model's single
terminal write per run reflects that the source writes status and
headers only through the one call each path ends in, after the whole
body was buffered. -/
theorem c8_no_partial_response (lib : GoLib) (c : S3Client) (req : Request) (key : String)
    (out : GetObjectOutput) (hGet : c.getObjectResp key = .ok out) :
    (∀ msg, out.body = .error msg → serveFile lib c req key = .httpError 500 msg) ∧
    (∀ hs n t content, serveFile lib c req key = .serveContent hs n t content →
      ∃ bs, out.body = .ok bs ∧
        content = (if gzipDecision lib req key out then lib.gzipCompress bs else bs)) := by
  constructor
  · intro msg hmsg
    simp [serveFile, getObject, hGet, hmsg]
  · intro hs n t content hserve
    cases hbody : out.body with
    | error msg =>
      rw [show serveFile lib c req key = .httpError 500 msg by
        simp [serveFile, getObject, hGet, hbody]] at hserve
      exact absurd hserve (by simp)
    | ok bs =>
      have hc := (serveFile_gzip_shape lib c req key out bs hGet hbody).1
      rw [hserve] at hc
      simp [outcomeContent] at hc
      exact ⟨bs, rfl, hc⟩

/-- Witness for C8: a body stream that fails with "connection reset"
produces `http.Error(500, "connection reset")`. -/
theorem c8_no_partial_response_witness :
    serveFile demoLib c8Client c8Req "/file" = .httpError 500 "connection reset" := by
  have h := c8_no_partial_response demoLib c8Client c8Req "/file" c8Obj rfl
  exact h.1 "connection reset" rfl

/-- Claim C9: serving the same object bytes twice, both times with no
Accept-Encoding header, yields the same ETag value — the ETag is a
deterministic function of the object bytes (here of the raw bytes, for
any store metadata and key). -/
theorem c9_etag_deterministic (lib : GoLib) (ca cb : S3Client) (reqa reqb : Request)
    (ka kb : String) (oa ob : GetObjectOutput) (bs : List Nat)
    (hga : ca.getObjectResp ka = .ok oa) (hba : oa.body = .ok bs)
    (hgb : cb.getObjectResp kb = .ok ob) (hbb : ob.body = .ok bs)
    (haea : reqa.acceptEncoding = "") (haeb : reqb.acceptEncoding = "") :
    outcomeHeader (serveFile lib ca reqa ka) "etag" =
      outcomeHeader (serveFile lib cb reqb kb) "etag" ∧
    outcomeHeader (serveFile lib ca reqa ka) "etag" =
      some ("\"" ++ base64EncodingEncodeToString (lib.sha256 bs) ++ "\"") := by
  have ha := serveFile_etag lib ca reqa ka oa bs hga hba
  have hb := serveFile_etag lib cb reqb kb ob bs hgb hbb
  exact ⟨ha.trans hb.symm, ha⟩

/-- Witness for C9: two objects with the same bytes but different keys,
content-types and cache metadata get the same ETag. -/
theorem c9_etag_deterministic_witness :
    outcomeHeader (serveFile demoLib c9ClientA c9ReqA "/a.txt") "etag" =
      outcomeHeader (serveFile demoLib c9ClientB c9ReqB "/b.bin") "etag" := by
  have h := c9_etag_deterministic demoLib c9ClientA c9ClientB c9ReqA c9ReqB "/a.txt" "/b.bin"
    c9ObjA c9ObjB [5, 6] rfl rfl rfl rfl rfl rfl
  exact h.1

/-- Claim C10: when no comma-separated token of Accept-Encoding trims
to exactly "gzip" — in particular when gzip appears only with a
parameter attached, as in "gzip;q=1.0" — the gzip-acceptance test is
false and the served body is the unchanged object bytes with neither
compression header, whatever the content-type. -/
theorem c10_gzip_token_params (lib : GoLib) (c : S3Client) (req : Request) (key : String)
    (out : GetObjectOutput) (bs : List Nat)
    (hGet : c.getObjectResp key = .ok out) (hBody : out.body = .ok bs)
    (hTok : ∀ t ∈ goSplit req.acceptEncoding ',', trimSpace t ≠ "gzip") :
    acceptEncodingGzip req = false ∧
    outcomeContent (serveFile lib c req key) = some bs ∧
    outcomeHeader (serveFile lib c req key) "content-encoding" = none ∧
    outcomeHeader (serveFile lib c req key) "vary" = none := by
  have hae : acceptEncodingGzip req = false := by
    simp only [acceptEncodingGzip, List.any_eq_false]
    intro t ht
    simpa [beq_eq_false_iff_ne] using hTok t ht
  have hgz : gzipDecision lib req key out = false := by
    simp [gzipDecision, hae]
  have h := serveFile_gzip_shape lib c req key out bs hGet hBody
  rw [hgz] at h
  simp at h
  exact ⟨hae, h.1, h.2.1, h.2.2⟩

/-- Witness for C10: `Accept-Encoding: gzip;q=1.0` on a "text/html"
object is served uncompressed with no Content-Encoding header. -/
theorem c10_gzip_token_params_witness :
    acceptEncodingGzip c10Req = false ∧
    outcomeContent (serveFile demoLib c10Client c10Req "/page.html") = some [104, 105] ∧
    outcomeHeader (serveFile demoLib c10Client c10Req "/page.html") "content-encoding" =
      none := by
  have h := c10_gzip_token_params demoLib c10Client c10Req "/page.html" c10Obj [104, 105]
    rfl rfl (by decide)
  exact ⟨h.1, h.2.1, h.2.2.1⟩

end S3Website
